import Mathlib

/-!
Shallow embedding of the `modern-dev/daylight` library (src/index.ts and the
unnamed variant src/unnamed/part_001) over exact real arithmetic.

Conventions of the embedding:
* JS `number` is modelled by `ℝ`; `Math.sin/cos/tan/asin/acos/atan2/sqrt` by
  the corresponding `Real` functions (Lean division by zero yields `0`;
  theorems that depend on nondegeneracy carry explicit hypotheses).
* A JS `Date` is modelled by its `valueOf()` (milliseconds since epoch) as an
  integer; the `Date` constructor truncates its millisecond argument toward
  zero (ECMAScript `TimeClip`), modelled by `jsTrunc`.
* `Math.round` is `⌊x + 1/2⌋` (round half up), as in ECMAScript.
* The local time zone enters only through `Date.prototype.setHours`, modelled
  by `setHoursZero` with an explicit zone offset parameter `tz` (ms).
* JS truthiness of the solver variables `rise`/`set` (numbers or `undefined`)
  is modelled by `truthy : Option ℝ → Prop` (`undefined` and `0` are falsy).
* `Math.acos` returns NaN outside `[−1,1]`; for the claims about NaN flow a
  small NaN-propagating layer (`acosN`, …) models a JS number as `Option ℝ`
  with `none` for NaN, and an invalid `Date` (`new Date(NaN)`) as `none`.
-/

namespace Daylight

open Real

/-- JS `Date` constructor / `TimeClip`: truncation of a millisecond value
toward zero. -/
noncomputable def jsTrunc (x : ℝ) : ℤ :=
  if 0 ≤ x then ⌊x⌋ else ⌈x⌉

/-- JS `Math.round`: round half toward positive infinity. -/
noncomputable def jsRound (x : ℝ) : ℤ := ⌊x + 1/2⌋

/-- Source: `const rad = PI / 180;`. -/
noncomputable def rad : ℝ := π / 180

/-- Source: `const e = rad * 23.4397;` (Earth obliquity, radians). -/
noncomputable def obliquity : ℝ := rad * 23.4397

/-- Source: `const dayMills = 1000 * 60 * 60 * 24;`. -/
def dayMills : ℝ := 1000 * 60 * 60 * 24

/-- Source: `const julian1970 = 2440588;`. -/
def julian1970 : ℝ := 2440588

/-- Source: `const julian2000 = 2451545;`. -/
def julian2000 : ℝ := 2451545

/-- Source: `const julian0 = 0.0009;`. -/
def julian0 : ℝ := 0.0009

/-- Source: `const sunsetAngle = -0.83 * rad;`. -/
noncomputable def sunsetAngle : ℝ := -0.83 * rad

/-- Source: `const sunDiameter = 0.53 * rad;`. -/
noncomputable def sunDiameter : ℝ := 0.53 * rad

/-- Source: `const nauticalTwilightAngle = -6 * rad;`. -/
noncomputable def nauticalTwilightAngle : ℝ := -6 * rad

/-- Source: `const astronomicalTwilightAngle = -12 * rad;`. -/
noncomputable def astronomicalTwilightAngle : ℝ := -12 * rad

/-- Source: `const darknessAngle = -18 * rad;`. -/
noncomputable def darknessAngle : ℝ := -18 * rad

/-- Source: `toJulian(date) = date.valueOf() / dayMills - 0.5 + julian1970`.
The argument is the date's millisecond value. -/
noncomputable def toJulian (ms : ℝ) : ℝ := ms / dayMills - 0.5 + julian1970

/-- Source: `getDays(date) = toJulian(date) - julian2000`. -/
noncomputable def getDays (ms : ℝ) : ℝ := toJulian ms - julian2000

/-- Source: `getJulianCycle(julian, lw) = round(julian - julian2000 - julian0 - lw/(2*PI))`. -/
noncomputable def getJulianCycle (julian lw : ℝ) : ℝ :=
  (jsRound (julian - julian2000 - julian0 - lw / (2 * π)) : ℝ)

/-- Source: `julianDateToDate(j) = new Date((j + 0.5 - julian1970) * dayMills)`;
the `Date` constructor truncates to integer milliseconds. -/
noncomputable def julianDateToDate (j : ℝ) : ℤ :=
  jsTrunc ((j + 0.5 - julian1970) * dayMills)

/-- JS `Math.atan2(y, x)`: principal angle of the point `(x, y)` in `(−π, π]`,
by the ECMAScript case analysis. -/
noncomputable def atan2 (y x : ℝ) : ℝ :=
  if 0 < x then Real.arctan (y / x)
  else if x < 0 then
    (if 0 ≤ y then Real.arctan (y / x) + π else Real.arctan (y / x) - π)
  else
    (if 0 < y then π / 2 else if y < 0 then -(π / 2) else 0)

/-- Source: `getRightAscension(lon, lat) = atan2(sin(lon)*cos(e) - tan(lat)*sin(e), cos(lon))`. -/
noncomputable def getRightAscension (lon lat : ℝ) : ℝ :=
  atan2 (Real.sin lon * Real.cos obliquity - Real.tan lat * Real.sin obliquity) (Real.cos lon)

/-- Source: `getDeclination(lon, lat) = asin(sin(lat)*cos(e) + cos(lat)*sin(e)*sin(lon))`. -/
noncomputable def getDeclination (lon lat : ℝ) : ℝ :=
  Real.arcsin (Real.sin lat * Real.cos obliquity + Real.cos lat * Real.sin obliquity * Real.sin lon)

/-- Source: `getAzimuth(h, phi, dec) = atan2(sin(h), cos(h)*sin(phi) - tan(dec)*cos(phi))`. -/
noncomputable def getAzimuth (h phi dec : ℝ) : ℝ :=
  atan2 (Real.sin h) (Real.cos h * Real.sin phi - Real.tan dec * Real.cos phi)

/-- Source: `getAltitude(h, phi, dec) = asin(sin(phi)*sin(dec) + cos(phi)*cos(dec)*cos(h))`. -/
noncomputable def getAltitude (h phi dec : ℝ) : ℝ :=
  Real.arcsin (Real.sin phi * Real.sin dec + Real.cos phi * Real.cos dec * Real.cos h)

/-- Source: `getSiderealTime(d, lw) = rad * (280.16 + 360.9856235 * d) - lw`. -/
noncomputable def getSiderealTime (d lw : ℝ) : ℝ :=
  rad * (280.16 + 360.9856235 * d) - lw

/-- Source: `getSolarMeanAnomaly(days) = rad * (357.5291 + 0.98560028 * days)`. -/
noncomputable def getSolarMeanAnomaly (days : ℝ) : ℝ :=
  rad * (357.5291 + 0.98560028 * days)

/-- Source: `hoursShift(date, hours) = new Date(date.valueOf() + hours * dayMills / 24)`. -/
noncomputable def hoursShift (ms : ℝ) (hours : ℝ) : ℤ :=
  jsTrunc (ms + hours * dayMills / 24)

/-- Source: `getApproxSolarTransit(ht, lw, julianCycle) = julian2000 + julian0 + (ht + lw)/(2*PI) + julianCycle`. -/
noncomputable def getApproxSolarTransit (ht lw julianCycle : ℝ) : ℝ :=
  julian2000 + julian0 + (ht + lw) / (2 * π) + julianCycle

/-- Source: `getSunriseJulianDate(julianTransit, julianSet) = julianTransit - (julianSet - julianTransit)`. -/
def getSunriseJulianDate (julianTransit julianSet : ℝ) : ℝ :=
  julianTransit - (julianSet - julianTransit)

/-- Source: `getSolarTransit(approxSolarTransit, solarMeanAnomaly, eclipticLongitude)`. -/
noncomputable def getSolarTransit (approxSolarTransit solarMeanAnomaly eclipticLongitude : ℝ) : ℝ :=
  approxSolarTransit + (0.0053 * Real.sin solarMeanAnomaly) +
    (-0.0069 * Real.sin (2 * eclipticLongitude))

/-- Source: `getSunsetJulianDate(w0, meanAnomaly, eclipticLongitude, lw, julianCycle)`. -/
noncomputable def getSunsetJulianDate (w0 meanAnomaly eclipticLongitude lw julianCycle : ℝ) : ℝ :=
  getSolarTransit (getApproxSolarTransit w0 lw julianCycle) meanAnomaly eclipticLongitude

/-- Source: `getHourAngle(hour, phi, declination) = acos((sin(hour) - sin(phi)*sin(declination)) / (cos(phi)*cos(declination)))`.
`Real.arccos` is total (it clamps), so this is the value-level model; the
NaN-propagating model used for the error-handling claim is `getHourAngleN`. -/
noncomputable def getHourAngle (hour phi declination : ℝ) : ℝ :=
  Real.arccos ((Real.sin hour - Real.sin phi * Real.sin declination) /
    (Real.cos phi * Real.cos declination))

/-- Source: `getEquationOfCenter(meanAnomaly)`. -/
noncomputable def getEquationOfCenter (meanAnomaly : ℝ) : ℝ :=
  rad * (1.9148 * Real.sin meanAnomaly + 0.02 * Real.sin (2 * meanAnomaly) +
    0.0003 * Real.sin (3 * meanAnomaly))

/-- Source: `getSolarEclipticLongitude(meanAnomaly)`. -/
noncomputable def getSolarEclipticLongitude (meanAnomaly : ℝ) : ℝ :=
  meanAnomaly + getEquationOfCenter meanAnomaly + rad * 102.9372 + π

/-- Source: `getAstroRefraction(altitude)`: clamp negative altitude to `0`,
then `0.0002967 / tan(altitude + 0.00312536 / (altitude + 0.08901179))`. -/
noncomputable def getAstroRefraction (altitude : ℝ) : ℝ :=
  let a := if altitude < 0 then 0 else altitude
  0.0002967 / Real.tan (a + 0.00312536 / (a + 0.08901179))

/-- Record returned by `getSunCoords`. -/
structure SunCoordinates where
  declination : ℝ
  rightAscension : ℝ

/-- Source: `getSunCoords(days)`. -/
noncomputable def getSunCoords (days : ℝ) : SunCoordinates :=
  let meanAnomaly := getSolarMeanAnomaly days
  let eclipticLongitude := getSolarEclipticLongitude meanAnomaly
  { declination := getDeclination eclipticLongitude 0
    rightAscension := getRightAscension eclipticLongitude 0 }

/-- Record returned by `getMoonCoords` (src/index.ts variant). -/
structure MoonCoordinates where
  rightAscension : ℝ
  declination : ℝ
  distance : ℝ

/-- Source (src/index.ts): `getMoonCoords(days)`. -/
noncomputable def getMoonCoords (days : ℝ) : MoonCoordinates :=
  let eclipticLong := rad * (218.316 + 13.176396 * days)
  let meanAnomaly := rad * (134.963 + 13.064993 * days)
  let meanDistance := rad * (93.272 + 13.229350 * days)
  let long := eclipticLong + rad * 6.289 * Real.sin meanAnomaly
  let lat := rad * 5.128 * Real.sin meanDistance
  let distance := 385001 - 20905 * Real.cos meanAnomaly
  { rightAscension := getRightAscension long lat
    declination := getDeclination long lat
    distance := distance }

/-- Sun position record. -/
structure SunPosition where
  azimuth : ℝ
  altitude : ℝ

/-- Source: `getSunPosition(date, lat, lon)`. -/
noncomputable def getSunPosition (ms lat lon : ℝ) : SunPosition :=
  let lw := rad * (-lon)
  let phi := rad * lat
  let days := getDays ms
  let sunnCoords := getSunCoords days
  let siderealTime := getSiderealTime days lw - sunnCoords.rightAscension
  { azimuth := getAzimuth siderealTime phi sunnCoords.declination
    altitude := getAltitude siderealTime phi sunnCoords.declination }

/-- Moon position record (src/index.ts variant). -/
structure MoonPosition where
  azimuth : ℝ
  altitude : ℝ
  distance : ℝ
  parallacticAngle : ℝ

/-- Source: `getMoonPosition(date, lat, lon)`: the raw `getAltitude` value,
then `altitude = altitude + getAstroRefraction(altitude)`. -/
noncomputable def getMoonPosition (ms lat lon : ℝ) : MoonPosition :=
  let lw := rad * (-lon)
  let phi := rad * lat
  let days := getDays ms
  let moonCoords := getMoonCoords days
  let siderealTime := getSiderealTime days lw - moonCoords.rightAscension
  let altitude0 := getAltitude siderealTime phi moonCoords.declination
  let parallacticAngle := atan2 (Real.sin siderealTime)
    (Real.tan phi * Real.cos moonCoords.declination -
      Real.sin moonCoords.declination * Real.cos siderealTime)
  let altitude := altitude0 + getAstroRefraction altitude0
  { azimuth := getAzimuth siderealTime phi moonCoords.declination
    altitude := altitude
    distance := moonCoords.distance
    parallacticAngle := parallacticAngle }

/-- Moon phase record. -/
structure MoonPhase where
  fraction : ℝ
  phase : ℝ
  angle : ℝ

/-- Source: `getMoonPhase(date)`. -/
noncomputable def getMoonPhase (ms : ℝ) : MoonPhase :=
  let days := getDays ms
  let sunCoords := getSunCoords days
  let moonCoords := getMoonCoords days
  let sunDistance : ℝ := 149598000
  let phi := Real.arccos (Real.sin sunCoords.declination * Real.sin moonCoords.declination +
    Real.cos sunCoords.declination * Real.cos moonCoords.declination *
      Real.cos (sunCoords.rightAscension - moonCoords.rightAscension))
  let inc := atan2 (sunDistance * Real.sin phi) (moonCoords.distance - sunDistance * Real.cos phi)
  let angle := atan2
    (Real.cos sunCoords.declination * Real.sin (sunCoords.rightAscension - moonCoords.rightAscension))
    (Real.sin sunCoords.declination * Real.cos moonCoords.declination -
      Real.cos sunCoords.declination * Real.sin moonCoords.declination *
        Real.cos (sunCoords.rightAscension - moonCoords.rightAscension))
  { fraction := (1 + Real.cos inc) / 2
    phase := 0.5 + 0.5 * inc * (if angle < 0 then -1 else 1) / π
    angle := angle }

/-- The raw (pre-refraction) moon altitude computed inside `getMoonPosition`. -/
noncomputable def rawMoonAltitude (ms lat lon : ℝ) : ℝ :=
  let lw := rad * (-lon)
  let phi := rad * lat
  let days := getDays ms
  let moonCoords := getMoonCoords days
  getAltitude (getSiderealTime days lw - moonCoords.rightAscension) phi moonCoords.declination

/-- The raw asin-based sun altitude computed inside `getSunPosition`. -/
noncomputable def rawSunAltitude (ms lat lon : ℝ) : ℝ :=
  let lw := rad * (-lon)
  let phi := rad * lat
  let days := getDays ms
  let sunnCoords := getSunCoords days
  getAltitude (getSiderealTime days lw - sunnCoords.rightAscension) phi sunnCoords.declination

lemma neg_pi_lt_atan2 (y x : ℝ) : -π < atan2 y x := by
  unfold atan2
  have hpi := Real.pi_pos
  split_ifs with h1 h2 h3 h4 h5
  · linarith [Real.neg_pi_div_two_lt_arctan (y / x)]
  · linarith [Real.neg_pi_div_two_lt_arctan (y / x)]
  · have hyx : 0 < y / x := div_pos_iff.mpr (Or.inr ⟨lt_of_not_le h3, h2⟩)
    have h0 : Real.arctan 0 < Real.arctan (y / x) := Real.arctan_strictMono hyx
    rw [Real.arctan_zero] at h0
    linarith
  · linarith
  · linarith
  · linarith

lemma atan2_le_pi (y x : ℝ) : atan2 y x ≤ π := by
  unfold atan2
  have hpi := Real.pi_pos
  split_ifs with h1 h2 h3 h4 h5
  · linarith [Real.arctan_lt_pi_div_two (y / x)]
  · have hyx : y / x ≤ 0 := div_nonpos_of_nonneg_of_nonpos h3 (le_of_lt h2)
    have h0 : Real.arctan (y / x) ≤ Real.arctan 0 := Real.arctan_strictMono.monotone hyx
    rw [Real.arctan_zero] at h0
    linarith
  · linarith [Real.arctan_lt_pi_div_two (y / x)]
  · linarith
  · linarith
  · linarith

/-- C6: converting an instant to a Julian Date with `toJulian` and back with
`julianDateToDate` reproduces the original instant exactly (hence to
millisecond precision); the `Date` constructor truncation is included. -/
theorem julian_roundtrip (ms : ℤ) : julianDateToDate (toJulian (ms : ℝ)) = ms := by
  have h : ((toJulian (ms : ℝ)) + 0.5 - julian1970) * dayMills = (ms : ℝ) := by
    unfold toJulian julian1970 dayMills
    field_simp
    ring
  unfold julianDateToDate
  rw [h]
  unfold jsTrunc
  split_ifs with h0
  · exact Int.floor_intCast ms
  · exact Int.ceil_intCast ms

/-- C10: the `distance` field computed by `getMoonCoords` always lies in
`[385001 − 20905, 385001 + 20905] = [364096, 405906]` kilometers. -/
theorem moon_distance_range (days : ℝ) :
    364096 ≤ (getMoonCoords days).distance ∧ (getMoonCoords days).distance ≤ 405906 := by
  unfold getMoonCoords
  constructor
  · simp only
    nlinarith [Real.cos_le_one (rad * (134.963 + 13.064993 * days))]
  · simp only
    nlinarith [Real.neg_one_le_cos (rad * (134.963 + 13.064993 * days))]

/-- C9: the refraction correction is applied only to the Moon: the moon
altitude equals the raw altitude plus `getAstroRefraction` of it, while the
sun altitude is the raw asin-based altitude with no refraction term. -/
theorem refraction_only_for_moon (ms lat lon : ℝ) :
    (getMoonPosition ms lat lon).altitude =
      rawMoonAltitude ms lat lon + getAstroRefraction (rawMoonAltitude ms lat lon) ∧
    (getSunPosition ms lat lon).altitude = rawSunAltitude ms lat lon := by
  constructor <;> rfl

/-- C8: for every instant, `getMoonPhase` returns `fraction ∈ [0,1]` and
`phase ∈ [0,1]`. -/
theorem getMoonPhase_range (ms : ℝ) :
    0 ≤ (getMoonPhase ms).fraction ∧ (getMoonPhase ms).fraction ≤ 1 ∧
    0 ≤ (getMoonPhase ms).phase ∧ (getMoonPhase ms).phase ≤ 1 := by
  unfold getMoonPhase
  simp only
  set dec_s := (getSunCoords (getDays ms)).declination
  set dec_m := (getMoonCoords (getDays ms)).declination
  set ra_s := (getSunCoords (getDays ms)).rightAscension
  set ra_m := (getMoonCoords (getDays ms)).rightAscension
  set phi := Real.arccos (Real.sin dec_s * Real.sin dec_m +
    Real.cos dec_s * Real.cos dec_m * Real.cos (ra_s - ra_m)) with hphi
  set inc := atan2 ((149598000 : ℝ) * Real.sin phi)
    ((getMoonCoords (getDays ms)).distance - 149598000 * Real.cos phi) with hinc
  set ang := atan2 (Real.cos dec_s * Real.sin (ra_s - ra_m))
    (Real.sin dec_s * Real.cos dec_m - Real.cos dec_s * Real.sin dec_m * Real.cos (ra_s - ra_m))
    with hang
  have hpi := Real.pi_pos
  have h1 : -π < inc := neg_pi_lt_atan2 _ _
  have h2 : inc ≤ π := atan2_le_pi _ _
  have hc1 := Real.neg_one_le_cos inc
  have hc2 := Real.cos_le_one inc
  refine ⟨by linarith, by linarith, ?_, ?_⟩
  · split_ifs with h
    · have : inc * -1 ≤ π := by linarith
      have hdiv : 0.5 * inc * (-1) / π ≥ -(1/2) := by
        rw [ge_iff_le, neg_le, ← neg_div]
        rw [div_le_iff₀ hpi]
        nlinarith
      linarith
    · have hdiv : 0.5 * inc * 1 / π ≥ -(1/2) := by
        rw [ge_iff_le, neg_le, ← neg_div]
        rw [div_le_iff₀ hpi]
        nlinarith
      linarith
  · split_ifs with h
    · have hdiv : 0.5 * inc * (-1) / π ≤ 1/2 := by
        rw [div_le_iff₀ hpi]
        nlinarith
      linarith
    · have hdiv : 0.5 * inc * 1 / π ≤ 1/2 := by
        rw [div_le_iff₀ hpi]
        nlinarith
      linarith

/-- JS `Date.prototype.setHours(0, 0, 0, 0)`: move a millisecond value back to
the preceding local midnight; `tz` is the local zone offset in milliseconds
(the value added to UTC milliseconds to obtain local clock milliseconds). -/
def setHoursZero (tz ms : ℤ) : ℤ := ms - (ms + tz) % 86400000

/-- Source: `const hc = 0.133 * rad;` inside `getMoonTimes`. -/
noncomputable def moonHc : ℝ := 0.133 * rad

/-- State of the `getMoonTimes` scan loop: the mutable variables `rise`,
`set` (a JS number or `undefined`) and `ye`. -/
structure ScanState where
  rise : Option ℝ
  set : Option ℝ
  ye : ℝ

/-- JS truthiness of the loop variables `rise`/`set`: `undefined` and `0` are
falsy, any other number is truthy. -/
def truthy (v : Option ℝ) : Prop := ∃ x, v = some x ∧ x ≠ 0

open Classical in
/-- One 2-hour window of the `getMoonTimes` loop body (src/index.ts lines
436–471): fit the parabola through `(−1,h0), (0,h1), (1,h2)`, count roots in
`[−1,1]`, and classify crossings. `i` is the loop counter (window start hour). -/
noncomputable def stepWindow (i h0 h1 h2 : ℝ) (st : ScanState) : ScanState :=
  let a := (h0 + h2) / 2 - h1
  let b := (h2 - h0) / 2
  let xe := -b / (2 * a)
  let ye := (a * xe + b) * xe + h1
  let d := b * b - 4 * a * h1
  if 0 ≤ d then
    let dx := Real.sqrt d / (|a| * 2)
    let x1 := xe - dx
    let x2 := xe + dx
    let roots : ℕ := (if |x1| ≤ 1 then 1 else 0) + (if |x2| ≤ 1 then 1 else 0)
    let x1 := if x1 < -1 then x2 else x1
    if roots = 1 then
      if h0 < 0 then { rise := some (i + x1), set := st.set, ye := ye }
      else { rise := st.rise, set := some (i + x1), ye := ye }
    else if roots = 2 then
      { rise := some (i + if ye < 0 then x2 else x1)
        set := some (i + if ye < 0 then x1 else x2)
        ye := ye }
    else { rise := st.rise, set := st.set, ye := ye }
  else { rise := st.rise, set := st.set, ye := ye }

/-- The hc-adjusted moon altitude sampled by `getMoonTimes` at hour `h` of the
day starting at millisecond `d0`. -/
noncomputable def moonAltAt (d0 : ℤ) (lat lon : ℝ) (h : ℝ) : ℝ :=
  (getMoonPosition ((hoursShift (d0 : ℝ) h : ℤ) : ℝ) lat lon).altitude - moonHc

open Classical in
/-- The loop `for (let i = 1; i <= 24; i += 2)` of `getMoonTimes`, with the
early `break` once `rise && set` are both truthy, and the `h0 = h2` carry. -/
noncomputable def runWindows (alt : ℝ → ℝ) : List ℝ → ℝ → ScanState → ScanState
  | [], _, st => st
  | i :: rest, h0, st =>
    let h1 := alt i
    let h2 := alt (i + 1)
    let st2 := stepWindow i h0 h1 h2 st
    if truthy st2.rise ∧ truthy st2.set then st2 else runWindows alt rest h2 st2

/-- The window start hours `i = 1, 3, …, 23` of the `getMoonTimes` loop. -/
def windowStarts : List ℝ := [1, 3, 5, 7, 9, 11, 13, 15, 17, 19, 21, 23]

/-- Result record of `getMoonTimes`: optional crossing instants (absent when
the JS code leaves the field unset) and the always-flags (`false` models an
absent flag; the JS code only ever writes `true`). -/
structure MoonTimes where
  moonrise : Option ℤ
  moonset : Option ℤ
  alwaysUp : Bool
  alwaysDown : Bool

open Classical in
/-- The result assembly of `getMoonTimes` (src/index.ts lines 480–494):
`if (rise) …`, `if (set) …`, `if (!rise && !set) result[ye > 0 ? 'alwaysUp' :
'alwaysDown'] = true`. -/
noncomputable def assembleMoonTimes (d0 : ℤ) (st : ScanState) : MoonTimes :=
  { moonrise := if truthy st.rise then st.rise.map (fun r => hoursShift (d0 : ℝ) r) else none
    moonset := if truthy st.set then st.set.map (fun s => hoursShift (d0 : ℝ) s) else none
    alwaysUp := if ¬truthy st.rise ∧ ¬truthy st.set ∧ 0 < st.ye then true else false
    alwaysDown := if ¬truthy st.rise ∧ ¬truthy st.set ∧ ¬0 < st.ye then true else false }

/-- Source: `getMoonTimes(date, lat, lon)`. Its first statement is
`date.setHours(0, 0, 0, 0)`, which writes through the caller's `Date`
reference; the second component of the result is the value the caller's
`Date` holds after the call. -/
noncomputable def getMoonTimes (tz ms : ℤ) (lat lon : ℝ) : MoonTimes × ℤ :=
  let d0 := setHoursZero tz ms
  let alt := moonAltAt d0 lat lon
  let st := runWindows alt windowStarts (alt 0) ⟨none, none, 0⟩
  (assembleMoonTimes d0 st, d0)

/-- C1 counterexample: calling `getMoonTimes` does not leave the
caller-supplied `Date` unchanged: for the instant 1000 ms after the epoch (in
zone UTC, at latitude and longitude 0) the caller's `Date` afterwards holds
the preceding midnight, `0`, not `1000`. -/
theorem getMoonTimes_mutates_date : (getMoonTimes 0 1000 0 0).2 ≠ 1000 := by
  show setHoursZero 0 1000 ≠ 1000
  unfold setHoursZero
  decide

/-- C1 amended: `getMoonTimes` mutates its caller-supplied `Date` argument to
the start of the local day of the queried instant — afterwards the argument
is at local midnight, and it is unchanged exactly when it already was at
local midnight. -/
theorem getMoonTimes_date_effect (tz ms : ℤ) (lat lon : ℝ) :
    ((getMoonTimes tz ms lat lon).2 + tz) % 86400000 = 0 ∧
    ((getMoonTimes tz ms lat lon).2 = ms ↔ (ms + tz) % 86400000 = 0) := by
  show ((setHoursZero tz ms) + tz) % 86400000 = 0 ∧
    (setHoursZero tz ms = ms ↔ (ms + tz) % 86400000 = 0)
  unfold setHoursZero
  omega

/-- C5: the `MoonTimes` record returned by `getMoonTimes` never carries both a
crossing instant and an always-flag: either both flags are absent, or both
crossing instants are absent. -/
theorem getMoonTimes_flags_exclusive (tz ms : ℤ) (lat lon : ℝ) :
    ((getMoonTimes tz ms lat lon).1.alwaysUp = false ∧
      (getMoonTimes tz ms lat lon).1.alwaysDown = false) ∨
    ((getMoonTimes tz ms lat lon).1.moonrise = none ∧
      (getMoonTimes tz ms lat lon).1.moonset = none) := by
  show ((assembleMoonTimes _ _).alwaysUp = false ∧ (assembleMoonTimes _ _).alwaysDown = false) ∨
    ((assembleMoonTimes _ _).moonrise = none ∧ (assembleMoonTimes _ _).moonset = none)
  set st := runWindows _ _ _ _
  unfold assembleMoonTimes
  by_cases hr : truthy st.rise
  · left
    constructor <;> simp [hr]
  · by_cases hs : truthy st.set
    · left
      constructor <;> simp [hr, hs]
    · right
      constructor <;> simp [hr, hs]

/-- A start/stop pair of instants; `stop` models the source field `end`
(a reserved word in Lean). -/
structure TimeSpan (α : Type) where
  start : α
  stop : α

/-- The shape of the `SunTimes` result, parametric in the field type
(`ℝ` for the Julian-date level, `ℤ` for the `Date` level). -/
structure SunTimesRec (α : Type) where
  sunrise : TimeSpan α
  civilDawn : TimeSpan α
  nauticalDawn : TimeSpan α
  astronomicalDawn : TimeSpan α
  dawn : α
  sunset : TimeSpan α
  civilDusk : TimeSpan α
  nauticalDusk : TimeSpan α
  astronomicalDusk : TimeSpan α
  dusk : α
  transit : α

/-- Source: `getSunTimes(date, lat, lon)` up to (but not including) the final
`julianDateToDate` conversions: the Julian dates that the source feeds into
each field of the returned record. -/
noncomputable def getSunTimesJ (ms lat lon : ℝ) : SunTimesRec ℝ :=
  let lw := -lon * rad
  let phi := lat * rad
  let julianDate := toJulian ms
  let julianCycle := getJulianCycle julianDate lw
  let approxSolarTransit := getApproxSolarTransit 0 lw julianCycle
  let solarMeanAnomaly := getSolarMeanAnomaly (approxSolarTransit - julian2000)
  let eclipticLongitude := getSolarEclipticLongitude solarMeanAnomaly
  let sunDeclination := Real.arcsin (Real.sin eclipticLongitude * Real.sin obliquity)
  let julianTransit := getSolarTransit approxSolarTransit solarMeanAnomaly eclipticLongitude
  let w0 := getHourAngle sunsetAngle phi sunDeclination
  let w1 := getHourAngle (sunsetAngle + sunDiameter) phi sunDeclination
  let julianSet := getSunsetJulianDate w0 solarMeanAnomaly eclipticLongitude lw julianCycle
  let julianSetStart := getSunsetJulianDate w1 solarMeanAnomaly eclipticLongitude lw julianCycle
  let julianRise := getSunriseJulianDate julianTransit julianSet
  let julianRiseEnd := getSunriseJulianDate julianTransit julianSetStart
  let w2 := getHourAngle nauticalTwilightAngle phi sunDeclination
  let w3 := getHourAngle astronomicalTwilightAngle phi sunDeclination
  let w4 := getHourAngle darknessAngle phi sunDeclination
  let julianNautical := getSunsetJulianDate w2 solarMeanAnomaly eclipticLongitude lw julianCycle
  let julianCivil := getSunriseJulianDate julianTransit julianNautical
  let julianAstro := getSunsetJulianDate w3 solarMeanAnomaly eclipticLongitude lw julianCycle
  let julianDark := getSunsetJulianDate w4 solarMeanAnomaly eclipticLongitude lw julianCycle
  let julianNautical2 := getSunriseJulianDate julianTransit julianAstro
  let julianAsto2 := getSunriseJulianDate julianTransit julianDark
  { sunrise := ⟨julianRise, julianRiseEnd⟩
    civilDawn := ⟨julianCivil, julianRise⟩
    nauticalDawn := ⟨julianNautical2, julianCivil⟩
    astronomicalDawn := ⟨julianAsto2, julianNautical2⟩
    dawn := julianCivil
    sunset := ⟨julianSetStart, julianSet⟩
    civilDusk := ⟨julianSet, julianNautical⟩
    nauticalDusk := ⟨julianNautical, julianAstro⟩
    astronomicalDusk := ⟨julianAstro, julianDark⟩
    dusk := julianNautical
    transit := julianTransit }

/-- Source: `getSunTimes(date, lat, lon)`: every field of the returned record
is `julianDateToDate` of the corresponding Julian date. -/
noncomputable def getSunTimes (ms lat lon : ℝ) : SunTimesRec ℤ :=
  let J := getSunTimesJ ms lat lon
  { sunrise := ⟨julianDateToDate J.sunrise.start, julianDateToDate J.sunrise.stop⟩
    civilDawn := ⟨julianDateToDate J.civilDawn.start, julianDateToDate J.civilDawn.stop⟩
    nauticalDawn := ⟨julianDateToDate J.nauticalDawn.start, julianDateToDate J.nauticalDawn.stop⟩
    astronomicalDawn := ⟨julianDateToDate J.astronomicalDawn.start,
      julianDateToDate J.astronomicalDawn.stop⟩
    dawn := julianDateToDate J.dawn
    sunset := ⟨julianDateToDate J.sunset.start, julianDateToDate J.sunset.stop⟩
    civilDusk := ⟨julianDateToDate J.civilDusk.start, julianDateToDate J.civilDusk.stop⟩
    nauticalDusk := ⟨julianDateToDate J.nauticalDusk.start, julianDateToDate J.nauticalDusk.stop⟩
    astronomicalDusk := ⟨julianDateToDate J.astronomicalDusk.start,
      julianDateToDate J.astronomicalDusk.stop⟩
    dusk := julianDateToDate J.dusk
    transit := julianDateToDate J.transit }

/-- C7: in `getSunTimes`, every horizon-angle threshold yields a pair of
Julian dates symmetric about the solar transit: the morning-side value equals
`transit − (eveningValue − transit)`, with the pairing sunrise.start ↔
sunset.end, sunrise.end ↔ sunset.start, civilDawn.start (dawn) ↔
civilDusk.end (dusk), nauticalDawn.start ↔ nauticalDusk.end, and
astronomicalDawn.start ↔ astronomicalDusk.end. -/
theorem sunTimes_symmetric_pairs (ms lat lon : ℝ) :
    (getSunTimesJ ms lat lon).sunrise.start =
      (getSunTimesJ ms lat lon).transit -
        ((getSunTimesJ ms lat lon).sunset.stop - (getSunTimesJ ms lat lon).transit) ∧
    (getSunTimesJ ms lat lon).sunrise.stop =
      (getSunTimesJ ms lat lon).transit -
        ((getSunTimesJ ms lat lon).sunset.start - (getSunTimesJ ms lat lon).transit) ∧
    (getSunTimesJ ms lat lon).civilDawn.start =
      (getSunTimesJ ms lat lon).transit -
        ((getSunTimesJ ms lat lon).civilDusk.stop - (getSunTimesJ ms lat lon).transit) ∧
    (getSunTimesJ ms lat lon).nauticalDawn.start =
      (getSunTimesJ ms lat lon).transit -
        ((getSunTimesJ ms lat lon).nauticalDusk.stop - (getSunTimesJ ms lat lon).transit) ∧
    (getSunTimesJ ms lat lon).astronomicalDawn.start =
      (getSunTimesJ ms lat lon).transit -
        ((getSunTimesJ ms lat lon).astronomicalDusk.stop - (getSunTimesJ ms lat lon).transit) := by
  exact ⟨rfl, rfl, rfl, rfl, rfl⟩

open Classical in
/-- JS `Math.acos` with its NaN behavior: `none` models NaN, returned for any
argument outside `[−1, 1]`. -/
noncomputable def acosN (x : ℝ) : Option ℝ :=
  if -1 ≤ x ∧ x ≤ 1 then some (Real.arccos x) else none

open Classical in
/-- `getHourAngle` under JS number semantics: when `cos(phi)*cos(declination)`
is zero the JS division yields `±Infinity` or `NaN` and `Math.acos` of that is
NaN; otherwise `Math.acos` of the real quotient, NaN outside `[−1, 1]`. -/
noncomputable def getHourAngleN (hour phi declination : ℝ) : Option ℝ :=
  if Real.cos phi * Real.cos declination = 0 then none
  else acosN ((Real.sin hour - Real.sin phi * Real.sin declination) /
    (Real.cos phi * Real.cos declination))

/-- `getSunsetJulianDate` under NaN propagation: arithmetic on NaN stays NaN. -/
noncomputable def getSunsetJulianDateN (w : Option ℝ)
    (meanAnomaly eclipticLongitude lw julianCycle : ℝ) : Option ℝ :=
  w.map (fun w0 => getSunsetJulianDate w0 meanAnomaly eclipticLongitude lw julianCycle)

/-- `getSunriseJulianDate` under NaN propagation of the sunset argument. -/
def getSunriseJulianDateN (julianTransit : ℝ) (julianSet : Option ℝ) : Option ℝ :=
  julianSet.map (fun s => getSunriseJulianDate julianTransit s)

/-- `new Date(NaN)`: the invalid `Date`. It is a `Date` value stored in the
returned record, not an absent field. -/
def jsInvalidDate : Option ℤ := none

/-- `julianDateToDate` under NaN propagation: a NaN Julian date becomes the
invalid `Date`. -/
noncomputable def julianDateToDateN (j : Option ℝ) : Option ℤ := j.map julianDateToDate

/-- C3: when the hour-angle equation has no real solution (the `acos` argument
lies outside `[−1, 1]`), the sun-times pipeline does not represent the
crossing as absent: the NaN from `getHourAngle` propagates through the sunset
and sunrise Julian dates into `new Date(NaN)`, so the corresponding record
fields hold invalid `Date` values. -/
theorem hourAngle_nan_yields_invalid_date
    (hour phi dec meanAnomaly eclipticLongitude lw julianCycle julianTransit : ℝ)
    (h : 1 < |(Real.sin hour - Real.sin phi * Real.sin dec) /
      (Real.cos phi * Real.cos dec)|) :
    getHourAngleN hour phi dec = none ∧
    julianDateToDateN (getSunsetJulianDateN (getHourAngleN hour phi dec)
      meanAnomaly eclipticLongitude lw julianCycle) = jsInvalidDate ∧
    julianDateToDateN (getSunriseJulianDateN julianTransit
      (getSunsetJulianDateN (getHourAngleN hour phi dec)
        meanAnomaly eclipticLongitude lw julianCycle)) = jsInvalidDate := by
  have hnone : getHourAngleN hour phi dec = none := by
    unfold getHourAngleN
    split_ifs with h0
    · rfl
    · unfold acosN
      rw [if_neg]
      intro hmem
      exact absurd (abs_le.mpr hmem) (not_le.mpr h)
  refine ⟨hnone, ?_, ?_⟩
  · rw [hnone]
    rfl
  · rw [hnone]
    rfl

/-- Witness for `hourAngle_nan_yields_invalid_date`: at `hour = −60°`,
`phi = dec = 60°` the `acos` argument is `−(2√3 + 3)`, outside `[−1, 1]`, and
the pipeline produces the invalid `Date`. -/
theorem hourAngle_nan_yields_invalid_date_witness :
    getHourAngleN (-(π/3)) (π/3) (π/3) = none ∧
    julianDateToDateN (getSunsetJulianDateN (getHourAngleN (-(π/3)) (π/3) (π/3)) 0 0 0 0) =
      jsInvalidDate := by
  have hs : Real.sin (π/3) = Real.sqrt 3 / 2 := Real.sin_pi_div_three
  have hc : Real.cos (π/3) = 1/2 := Real.cos_pi_div_three
  have h3 : Real.sqrt 3 * Real.sqrt 3 = 3 := Real.mul_self_sqrt (by norm_num)
  have h3nn : 0 ≤ Real.sqrt 3 := Real.sqrt_nonneg 3
  have harg : (Real.sin (-(π/3)) - Real.sin (π/3) * Real.sin (π/3)) /
      (Real.cos (π/3) * Real.cos (π/3)) = -(2 * Real.sqrt 3) - 3 := by
    rw [Real.sin_neg, hs, hc]
    rw [div_eq_iff (by norm_num : ((1:ℝ)/2) * (1/2) ≠ 0)]
    nlinarith [h3]
  have h := hourAngle_nan_yields_invalid_date (-(π/3)) (π/3) (π/3) 0 0 0 0 0
    (by
      rw [harg, abs_of_neg (by nlinarith)]
      nlinarith)
  exact ⟨h.1, h.2.1⟩

lemma sqrt_sixteen : Real.sqrt 16 = 4 := by
  rw [show (16:ℝ) = 4 ^ 2 by norm_num]
  exact Real.sqrt_sq (by norm_num)

lemma stepWindow_eval_demo :
    stepWindow 1 3 (-1) 3 ⟨none, none, 0⟩ =
      ⟨some (3/2), some (1/2), -1⟩ := by
  have h16 : Real.sqrt 16 = 4 := sqrt_sixteen
  have habs : |(2:ℝ)⁻¹| ≤ 1 := by
    rw [abs_of_nonneg (by norm_num : (0:ℝ) ≤ 2⁻¹)]
    norm_num
  unfold stepWindow
  norm_num [h16]
  simp [habs]

/-- C4 counterexample: in the window starting at hour `i = 1` with samples
`h0 = 3, h1 = −1, h2 = 3` the parabola has the two valid roots `x1 = −1/2`
(earlier) and `x2 = 1/2` (later) and vertex altitude `ye = −1 < 0`; the code
assigns the rise to the LATER root (`i + x2 = 3/2`), not to the earlier root
(`i + x1 = 1/2`) that the claim predicts for `ye < 0`. -/
theorem moonTwoRoots_claim_false :
    (stepWindow 1 3 (-1) 3 ⟨none, none, 0⟩).rise = some (3/2) ∧
    (stepWindow 1 3 (-1) 3 ⟨none, none, 0⟩).set = some (1/2) ∧
    (stepWindow 1 3 (-1) 3 ⟨none, none, 0⟩).ye = -1 ∧
    some ((3:ℝ)/2) ≠ some ((1:ℝ)/2) := by
  rw [stepWindow_eval_demo]
  refine ⟨rfl, rfl, rfl, ?_⟩
  intro hcontra
  have : ((3:ℝ)/2) = 1/2 := Option.some_injective ℝ hcontra
  norm_num at this

/-- C4 amended: whenever a window's parabola is nondegenerate (`a ≠ 0`) and
has two valid roots `x1 ≤ x2` in `[−1, 1]`, the code assigns the LATER root
as the rise when the vertex altitude `ye` is negative and the earlier root
as the rise otherwise; the remaining root is the set. -/
theorem moonTwoRoots_assignment
    (i h0 h1 h2 : ℝ) (st : ScanState)
    (a b xe ye d x1 x2 : ℝ)
    (ha : a = (h0 + h2) / 2 - h1) (hb : b = (h2 - h0) / 2)
    (hxe : xe = -b / (2 * a)) (hye : ye = (a * xe + b) * xe + h1)
    (hd : d = b * b - 4 * a * h1)
    (hx1 : x1 = xe - Real.sqrt d / (|a| * 2)) (hx2 : x2 = xe + Real.sqrt d / (|a| * 2))
    (ha0 : a ≠ 0) (hd0 : 0 ≤ d) (hr1 : |x1| ≤ 1) (hr2 : |x2| ≤ 1) :
    x1 ≤ x2 ∧
    stepWindow i h0 h1 h2 st =
      ⟨some (i + if ye < 0 then x2 else x1), some (i + if ye < 0 then x1 else x2), ye⟩ := by
  have hdx : 0 ≤ Real.sqrt d / (|a| * 2) := by
    apply div_nonneg (Real.sqrt_nonneg d)
    have : 0 < |a| := abs_pos.mpr ha0
    linarith
  constructor
  · rw [hx1, hx2]
    linarith
  · subst ha hb hxe hye hd hx1 hx2
    simp only [stepWindow]
    rw [if_pos hd0, if_pos hr1, if_pos hr2]
    rw [if_neg (not_lt.mpr (neg_le_of_abs_le hr1))]
    norm_num

/-- Witness for `moonTwoRoots_assignment`: the window `i = 1`, `h0 = 3`,
`h1 = −1`, `h2 = 3` has `a = 4`, `b = 0`, roots `x1 = −1/2 ≤ x2 = 1/2` and
vertex altitude `ye = −1 < 0`; the rise is assigned the later root. -/
theorem moonTwoRoots_assignment_witness :
    ((-1 : ℝ)/2 ≤ 1/2) ∧
    stepWindow 1 3 (-1) 3 ⟨none, none, 0⟩ = ⟨some ((3:ℝ)/2), some ((1:ℝ)/2), (-1:ℝ)⟩ := by
  have h := moonTwoRoots_assignment 1 3 (-1) 3 ⟨none, none, 0⟩ 4 0 0 (-1) 16 (-1/2) (1/2)
    (by norm_num) (by norm_num) (by norm_num) (by norm_num) (by norm_num)
    (by rw [sqrt_sixteen]; norm_num)
    (by rw [sqrt_sixteen]; norm_num)
    (by norm_num) (by norm_num)
    (by rw [abs_le]; constructor <;> norm_num)
    (by rw [abs_le]; constructor <;> norm_num)
  refine ⟨h.1, ?_⟩
  rw [h.2]
  norm_num


/-- Source (src/unnamed/part_001): `normalize(v)`: `v = v - floor(v); if (v < 0) v = v + 1; return v`. -/
noncomputable def normalize (v : ℝ) : ℝ :=
  let w := v - ⌊v⌋
  if w < 0 then w + 1 else w

lemma normalize_eq_fract (v : ℝ) : normalize v = Int.fract v := by
  simp only [normalize]
  rw [Int.self_sub_floor]
  rw [if_neg (not_lt.mpr (Int.fract_nonneg v))]

/-- Source (src/unnamed/part_001 lines 152–169): the Gregorian calendar date
(year, month `1..12` from `getMonth()+1`, day of month) to integer Julian Day
Number computation inside `getMoonCoords`. `Int.fdiv` is floor division,
matching `Math.floor` of the exact quotients. -/
def civilToJdn (year month day : ℤ) : ℤ :=
  let yy := year - Int.fdiv (12 - month) 10
  let mm0 := month + 9
  let mm := if 12 ≤ mm0 then mm0 - 12 else mm0
  let k1 := Int.fdiv (1461 * (yy + 4712)) 4
  let k2 := Int.fdiv (306 * mm + 5) 10
  let k3 := Int.fdiv (3 * (Int.fdiv (yy + 4900) 100)) 4 - 38
  let jd := k1 + k2 + day + 59
  if 2299160 < jd then jd - k3 else jd

/-- Source (src/unnamed/part_001 lines 22–71): the 12-entry zodiac table, in
object-key order, as (sign, lower bound in degrees) pairs. -/
noncomputable def zodiacs : List (String × ℝ) :=
  [("Aries", 0), ("Taurus", 30), ("Gemini", 60), ("Cancer", 90), ("Leo", 120),
   ("Virgo", 150), ("Libra", 180), ("Scorpio", 210), ("Sagittarius", 240),
   ("Capricorn", 270), ("Aquarius", 300), ("Pisces", 330)]

open Classical in
/-- Source (src/unnamed/part_001 lines 178–181): `Object.keys(zodiacs).map(...)
.filter(z => longitude >= z.long && longitude < z.long + 30)[0].sign`.
`none` models the failure case: `[0]` of an empty filter result is
`undefined` and reading `.sign` throws a TypeError at runtime. -/
noncomputable def zodiacSignOf (lng : ℝ) : Option String :=
  ((zodiacs.filter fun z => decide (z.2 <= lng ∧ lng < z.2 + 30)).head?).map Prod.fst

/-- Source (src/unnamed/part_001 lines 171–177): the astrologically-normalized
lunar longitude computed inside `getMoonCoords` from the integer Julian Day
Number `jd` of the civil date. -/
noncomputable def zodiacLongitude (jd : ℤ) : ℝ :=
  let ip0 := normalize (((jd : ℝ) - 2451550.1) / 29.530588853)
  let ip := ip0 * 2 * π
  let dp := 2 * π * normalize (((jd : ℝ) - 2451562.2) / 27.55454988)
  let rp := normalize (((jd : ℝ) - 2451555.8) / 27.321582241)
  360 * rp + 6.3 * Real.sin dp + 1.3 * Real.sin (2 * ip - dp) + 0.7 * Real.sin (2 * ip)

/-- The `zodiacSign` field computed by `getMoonCoords` (src/unnamed/part_001)
for a civil calendar date. -/
noncomputable def moonZodiacSign (year month day : ℤ) : Option String :=
  zodiacSignOf (zodiacLongitude (civilToJdn year month day))

lemma zodiacSignOf_isSome_of_mem {lng : ℝ} (h0 : 0 ≤ lng) (h1 : lng < 360) :
    (zodiacSignOf lng).isSome = true := by
  unfold zodiacSignOf zodiacs
  simp only [List.filter_cons, List.filter_nil, decide_eq_true_eq]
  by_cases c0 : (0:ℝ) ≤ lng ∧ lng < 0 + 30
  · rw [if_pos c0]
    rfl
  · rw [if_neg c0]
    by_cases c1 : (30:ℝ) ≤ lng ∧ lng < 30 + 30
    · rw [if_pos c1]
      rfl
    · rw [if_neg c1]
      by_cases c2 : (60:ℝ) ≤ lng ∧ lng < 60 + 30
      · rw [if_pos c2]
        rfl
      · rw [if_neg c2]
        by_cases c3 : (90:ℝ) ≤ lng ∧ lng < 90 + 30
        · rw [if_pos c3]
          rfl
        · rw [if_neg c3]
          by_cases c4 : (120:ℝ) ≤ lng ∧ lng < 120 + 30
          · rw [if_pos c4]
            rfl
          · rw [if_neg c4]
            by_cases c5 : (150:ℝ) ≤ lng ∧ lng < 150 + 30
            · rw [if_pos c5]
              rfl
            · rw [if_neg c5]
              by_cases c6 : (180:ℝ) ≤ lng ∧ lng < 180 + 30
              · rw [if_pos c6]
                rfl
              · rw [if_neg c6]
                by_cases c7 : (210:ℝ) ≤ lng ∧ lng < 210 + 30
                · rw [if_pos c7]
                  rfl
                · rw [if_neg c7]
                  by_cases c8 : (240:ℝ) ≤ lng ∧ lng < 240 + 30
                  · rw [if_pos c8]
                    rfl
                  · rw [if_neg c8]
                    by_cases c9 : (270:ℝ) ≤ lng ∧ lng < 270 + 30
                    · rw [if_pos c9]
                      rfl
                    · rw [if_neg c9]
                      by_cases c10 : (300:ℝ) ≤ lng ∧ lng < 300 + 30
                      · rw [if_pos c10]
                        rfl
                      · rw [if_neg c10]
                        by_cases c11 : (330:ℝ) ≤ lng ∧ lng < 330 + 30
                        · rw [if_pos c11]
                          rfl
                        · rw [if_neg c11]
                          exfalso
                          have d0 : (30:ℝ) ≤ lng := by
                            rcases not_and_or.mp c0 with h | h
                            · linarith
                            · linarith
                          have d1 : (60:ℝ) ≤ lng := by
                            rcases not_and_or.mp c1 with h | h
                            · linarith
                            · linarith
                          have d2 : (90:ℝ) ≤ lng := by
                            rcases not_and_or.mp c2 with h | h
                            · linarith
                            · linarith
                          have d3 : (120:ℝ) ≤ lng := by
                            rcases not_and_or.mp c3 with h | h
                            · linarith
                            · linarith
                          have d4 : (150:ℝ) ≤ lng := by
                            rcases not_and_or.mp c4 with h | h
                            · linarith
                            · linarith
                          have d5 : (180:ℝ) ≤ lng := by
                            rcases not_and_or.mp c5 with h | h
                            · linarith
                            · linarith
                          have d6 : (210:ℝ) ≤ lng := by
                            rcases not_and_or.mp c6 with h | h
                            · linarith
                            · linarith
                          have d7 : (240:ℝ) ≤ lng := by
                            rcases not_and_or.mp c7 with h | h
                            · linarith
                            · linarith
                          have d8 : (270:ℝ) ≤ lng := by
                            rcases not_and_or.mp c8 with h | h
                            · linarith
                            · linarith
                          have d9 : (300:ℝ) ≤ lng := by
                            rcases not_and_or.mp c9 with h | h
                            · linarith
                            · linarith
                          have d10 : (330:ℝ) ≤ lng := by
                            rcases not_and_or.mp c10 with h | h
                            · linarith
                            · linarith
                          have d11 : (360:ℝ) ≤ lng := by
                            rcases not_and_or.mp c11 with h | h
                            · linarith
                            · linarith
                          linarith

lemma zodiacSignOf_eq_none_of_not_mem {lng : ℝ} (h : lng < 0 ∨ 360 ≤ lng) :
    zodiacSignOf lng = none := by
  have hnot : ∀ lo : ℝ, 0 ≤ lo → lo + 30 ≤ 360 → ¬(lo ≤ lng ∧ lng < lo + 30) := by
    rintro lo hlo hhi ⟨ha, hb⟩
    rcases h with h | h
    · linarith
    · linarith
  unfold zodiacSignOf zodiacs
  simp only [List.filter_cons, List.filter_nil, decide_eq_true_eq]
  rw [if_neg (hnot 0 (by norm_num) (by norm_num)), if_neg (hnot 30 (by norm_num) (by norm_num)),
    if_neg (hnot 60 (by norm_num) (by norm_num)), if_neg (hnot 90 (by norm_num) (by norm_num)),
    if_neg (hnot 120 (by norm_num) (by norm_num)), if_neg (hnot 150 (by norm_num) (by norm_num)),
    if_neg (hnot 180 (by norm_num) (by norm_num)), if_neg (hnot 210 (by norm_num) (by norm_num)),
    if_neg (hnot 240 (by norm_num) (by norm_num)), if_neg (hnot 270 (by norm_num) (by norm_num)),
    if_neg (hnot 300 (by norm_num) (by norm_num)), if_neg (hnot 330 (by norm_num) (by norm_num))]
  rfl


lemma zodiacLongitude_2001_neg : zodiacLongitude 2451911 < 0 := by
  have hden2 : (0:ℝ) < 27.55454988 := by norm_num
  have hden3 : (0:ℝ) < 27.321582241 := by norm_num
  simp only [zodiacLongitude, normalize_eq_fract]
  push_cast
  set q1 : ℝ := ((2451911:ℝ) - 2451550.1) / 29.530588853 with hq1def
  set q2 : ℝ := ((2451911:ℝ) - 2451562.2) / 27.55454988 with hq2def
  set q3 : ℝ := ((2451911:ℝ) - 2451555.8) / 27.321582241 with hq3def
  clear_value q1 q2 q3
  have hfl2 : ⌊q2⌋ = 12 := by
    rw [Int.floor_eq_iff]
    constructor
    · rw [hq2def, le_div_iff₀ hden2]
      norm_num
    · rw [hq2def]
      push_cast
      rw [div_lt_iff₀ hden2]
      norm_num
  have hfl3 : ⌊q3⌋ = 13 := by
    rw [Int.floor_eq_iff]
    constructor
    · rw [hq3def, le_div_iff₀ hden3]
      norm_num
    · rw [hq3def]
      push_cast
      rw [div_lt_iff₀ hden3]
      norm_num
  have hr3 : Int.fract q3 = q3 - 13 := by
    rw [← Int.self_sub_floor, hfl3]
    norm_num
  have hr3ub : Int.fract q3 ≤ 0.000712 := by
    rw [hr3]
    have : q3 ≤ 13.000712 := by
      rw [hq3def, div_le_iff₀ hden3]
      norm_num
    linarith
  have hr3lb : 0 ≤ Int.fract q3 := Int.fract_nonneg _
  have hc2 : Int.fract q2 = q2 - 12 := by
    rw [← Int.self_sub_floor, hfl2]
    norm_num
  have ht1 : 0.31705 ≤ 2 * Int.fract q2 - 1 := by
    rw [hc2]
    have : (12.658525:ℝ) ≤ q2 := by
      rw [hq2def, le_div_iff₀ hden2]
      norm_num
    linarith
  have ht2 : 2 * Int.fract q2 - 1 ≤ 0.31706 := by
    rw [hc2]
    have : q2 ≤ 12.65853 := by
      rw [hq2def, div_le_iff₀ hden2]
      norm_num
    linarith
  have hpi1 : (3.141592:ℝ) < π := Real.pi_gt_d6
  have hpi2 : π < 3.141593 := Real.pi_lt_d6
  have hsin_dp : Real.sin (2 * π * Int.fract q2) =
      -Real.sin (π * (2 * Int.fract q2 - 1)) := by
    rw [show 2 * π * Int.fract q2 = π + π * (2 * Int.fract q2 - 1) by ring]
    rw [Real.sin_add, Real.sin_pi, Real.cos_pi]
    ring
  have hy_lb : (0.99604:ℝ) ≤ π * (2 * Int.fract q2 - 1) := by nlinarith
  have hy_ub : π * (2 * Int.fract q2 - 1) ≤ 0.99608 := by nlinarith
  have hy_pos : (0:ℝ) < π * (2 * Int.fract q2 - 1) := by nlinarith
  have hy_le1 : π * (2 * Int.fract q2 - 1) ≤ 1 := by linarith
  have hsin_y : (0.7489:ℝ) < Real.sin (π * (2 * Int.fract q2 - 1)) := by
    have h := Real.sin_gt_sub_cube hy_pos hy_le1
    have hcube : (π * (2 * Int.fract q2 - 1)) ^ 3 ≤ (0.99608:ℝ) ^ 3 :=
      pow_le_pow_left₀ (le_of_lt hy_pos) hy_ub 3
    nlinarith
  have hs2 := Real.sin_le_one (2 * (Int.fract q1 * 2 * π) - 2 * π * Int.fract q2)
  have hs3 := Real.sin_le_one (2 * (Int.fract q1 * 2 * π))
  rw [hsin_dp]
  linarith

/-- C2 amended: the zodiac lookup selects a sign exactly when the longitude
lies in `[0, 360)` (the 12 disjoint 30° buckets cover exactly that range),
and the astrologically-normalized lunar longitude is only guaranteed to lie
in `[−8.3, 368.3)`, not in `[0, 360)`. -/
theorem zodiacSignOf_iff_and_range (lng : ℝ) (jd : ℤ) :
    ((zodiacSignOf lng).isSome = true ↔ (0 ≤ lng ∧ lng < 360)) ∧
    (-8.3 ≤ zodiacLongitude jd ∧ zodiacLongitude jd < 368.3) := by
  constructor
  · constructor
    · intro hsome
      by_contra hmem
      rw [not_and_or, not_le, not_lt] at hmem
      rw [zodiacSignOf_eq_none_of_not_mem hmem] at hsome
      simp at hsome
    · rintro ⟨ha, hb⟩
      exact zodiacSignOf_isSome_of_mem ha hb
  · simp only [zodiacLongitude, normalize_eq_fract]
    have h1 := Int.fract_nonneg (((jd:ℝ) - 2451555.8) / 27.321582241)
    have h2 := Int.fract_lt_one (((jd:ℝ) - 2451555.8) / 27.321582241)
    have s1a := Real.neg_one_le_sin (2 * π * Int.fract (((jd:ℝ) - 2451562.2) / 27.55454988))
    have s1b := Real.sin_le_one (2 * π * Int.fract (((jd:ℝ) - 2451562.2) / 27.55454988))
    have s2a := Real.neg_one_le_sin
      (2 * (Int.fract (((jd:ℝ) - 2451550.1) / 29.530588853) * 2 * π) -
        2 * π * Int.fract (((jd:ℝ) - 2451562.2) / 27.55454988))
    have s2b := Real.sin_le_one
      (2 * (Int.fract (((jd:ℝ) - 2451550.1) / 29.530588853) * 2 * π) -
        2 * π * Int.fract (((jd:ℝ) - 2451562.2) / 27.55454988))
    have s3a := Real.neg_one_le_sin (2 * (Int.fract (((jd:ℝ) - 2451550.1) / 29.530588853) * 2 * π))
    have s3b := Real.sin_le_one (2 * (Int.fract (((jd:ℝ) - 2451550.1) / 29.530588853) * 2 * π))
    constructor
    · linarith
    · linarith

/-- C2 counterexample: for the civil date 2001-01-01 (Julian Day Number
2451911) the astrologically-normalized lunar longitude is negative, so it lies
outside `[0, 360)` and the 12-entry zodiac range lookup selects no bucket: the
`zodiacSign` computation fails (in JS, reading `.sign` of `undefined` throws). -/
theorem zodiac_lookup_fails_2001_01_01 :
    civilToJdn 2001 1 1 = 2451911 ∧
    zodiacLongitude 2451911 < 0 ∧
    moonZodiacSign 2001 1 1 = none := by
  have hjdn : civilToJdn 2001 1 1 = 2451911 := by decide
  refine ⟨hjdn, zodiacLongitude_2001_neg, ?_⟩
  unfold moonZodiacSign
  rw [hjdn]
  exact zodiacSignOf_eq_none_of_not_mem (Or.inl zodiacLongitude_2001_neg)

end Daylight
